import Mathlib

/-!
Shallow embedding of the streaming/pagination generators
(python-generators-0x00) and the resilience decorators
(python-decorators-0x01) of the repository, together with proofs of the
specified properties.
-/

set_option autoImplicit false

universe u v

/-- One record of the user_data table, as produced by the dictionary
cursors of python-generators-0x00: user_id, name, email, age. -/
structure Row where
  userId : String
  name : String
  email : String
  age : Int
deriving DecidableEq, Repr

/-- Python exception raised by the validation code of the generator
functions (ValueError). -/
inductive PyErr where
  | valueError (msg : String)
deriving DecidableEq, Repr

/-- A mysql connector Error, as caught by the except-Error handlers of
the generator modules. Only the message is relevant to the embedding. -/
structure DBError where
  msg : String
deriving DecidableEq, Repr

deriving instance DecidableEq for Except

/-- The fetchmany loop of stream_users_in_batches
(1-batch_processing.py, lines 96-115), with an explicit fuel bounding
the number of iterations (chunkList below supplies fuel that is always
sufficient): repeatedly take up to bs rows from the remaining result
set and stop on an empty fetch.  The bs = 0 case is unreachable in the
source (the loop is guarded by the batch_size validation);
fetchmany(0) returns no rows, so the loop would break at once, which
the empty result models. -/
def chunkFuel {α : Type u} : Nat → Nat → List α → List (List α)
  | _, _, [] => []
  | 0, _, _ :: _ => []
  | _ + 1, 0, _ :: _ => []
  | bs + 1, fuel + 1, x :: xs =>
    ((x :: xs).take (bs + 1)) :: chunkFuel (bs + 1) fuel ((x :: xs).drop (bs + 1))

/-- The fetchmany loop of stream_users_in_batches, run to completion:
since every iteration with a positive batch size consumes at least one
row, the length of the result set bounds the iteration count. -/
def chunkList {α : Type u} (bs : Nat) (l : List α) : List (List α) :=
  chunkFuel bs l.length l

/-- stream_users_in_batches(batch_size) (1-batch_processing.py, lines
42-125).  The data source is `some rows` when connect_to_prodev
succeeds over a table holding `rows` (in user_id order) and `none` when
the connection fails (the generator then yields nothing).  The second
component counts the connections opened by the run: the ValueError for
batch_size <= 0 is raised before connect_to_prodev is called. -/
def stream_users_in_batches (batch_size : Int) (src : Option (List Row)) :
    Except PyErr (List (List Row)) × Nat :=
  if batch_size ≤ 0 then
    (Except.error (PyErr.valueError "Batch size must be a positive integer"), 0)
  else
    match src with
    | none => (Except.ok [], 1)
    | some rows => (Except.ok (chunkList batch_size.toNat rows), 1)

/-- The two nested loops of batch_processing (1-batch_processing.py,
lines 162-169): for each batch, yield each user whose age is over 25. -/
def filterBatches : List (List Row) → List Row
  | [] => []
  | b :: rest => (b.filter fun u => decide (25 < u.age)) ++ filterBatches rest

/-- batch_processing(batch_size) (1-batch_processing.py, lines
128-169): stream batches and yield the users over age 25 one by one. -/
def batch_processing (batch_size : Int) (src : Option (List Row)) :
    Except PyErr (List Row) × Nat :=
  match stream_users_in_batches batch_size src with
  | (Except.error e, n) => (Except.error e, n)
  | (Except.ok batches, n) => (Except.ok (filterBatches batches), n)

/-- paginate_users(page_size, offset) (2-lazy_paginate.py, lines
49-126).  The connection is `none` when connect_to_prodev fails (the
function then returns an empty list); otherwise `q page_size offset`
models executing the LIMIT/OFFSET query, which either returns the rows
of the page or raises a mysql Error.  The except-Error handler at lines
117-119 swallows the raised error and returns an empty list. -/
def paginate_users (conn : Option (Nat → Nat → Except DBError (List Row)))
    (page_size offset : Nat) : List Row :=
  match conn with
  | none => []
  | some q =>
    match q page_size offset with
    | Except.ok rows => rows
    | Except.error _ => []

/-- The while-True loop of lazy_paginate (2-lazy_paginate.py, lines
180-200): fetch the page at the current offset, stop on an empty page,
yield the page, advance the offset by page_size, and stop after a short
page.  The first component collects the yielded pages, the second
counts the calls to paginate_users.  The fuel argument only bounds the
recursion; every run below takes place with enough fuel. -/
def lazyPagLoop (conn : Option (Nat → Nat → Except DBError (List Row)))
    (ps : Nat) : Nat → Nat → List (List Row) × Nat
  | 0, _ => ([], 0)
  | fuel + 1, offset =>
    let page := paginate_users conn ps offset
    if page.isEmpty then ([], 1)
    else if page.length < ps then ([page], 1)
    else
      let r := lazyPagLoop conn ps fuel (offset + ps)
      (page :: r.1, r.2 + 1)

/-- lazy_paginate(page_size) (2-lazy_paginate.py, lines 129-200):
validate the page size (raising ValueError before any fetch), then run
the pagination loop from offset 0.  The second component counts the
page fetches (each of which opens its own connection); it is 0 on the
validation error. -/
def lazy_paginate (page_size : Int)
    (conn : Option (Nat → Nat → Except DBError (List Row))) (fuel : Nat) :
    Except PyErr (List (List Row)) × Nat :=
  if page_size ≤ 0 then
    (Except.error (PyErr.valueError "Page size must be a positive integer"), 0)
  else
    let r := lazyPagLoop conn page_size.toNat fuel 0
    (Except.ok r.1, r.2)

/-- The query SELECT user_id, name, email, age FROM user_data ORDER BY
user_id LIMIT page_size OFFSET offset, executed against a fixed table
whose rows in user_id order are R: it returns the slice of R starting
at the offset, of at most page_size rows, and never raises. -/
def tableSource (R : List Row) : Nat → Nat → Except DBError (List Row) :=
  fun page_size offset => Except.ok ((R.drop offset).take page_size)

/-- stream_user_ages (4-stream_ages.py, lines 42-115): yield the age of
every row of the source in user_id order; a failed connection gives an
empty stream. -/
def stream_user_ages (src : Option (List Row)) : List Int :=
  match src with
  | none => []
  | some rows => rows.map fun r => r.age

/-- calculate_average_age (4-stream_ages.py, lines 118-154): fold the
age stream with a running sum and running count, then divide, returning
0.0 for an empty stream. -/
def calculate_average_age (src : Option (List Row)) : Rat :=
  let agg := (stream_user_ages src).foldl
    (fun p age => (p.1 + age, p.2 + 1)) (((0 : Int), (0 : Nat)))
  if agg.2 > 0 then (agg.1 : Rat) / (agg.2 : Rat) else 0

/-- A row carrying only an age, for concrete instances. -/
def ageRow (a : Int) : Row :=
  { userId := "", name := "", email := "", age := a }

/-- A data source whose every page query raises a mysql Error. -/
def failingSource : Nat → Nat → Except DBError (List Row) :=
  fun _ _ => Except.error { msg := "mysql connection lost during query" }

/-- The connection state of a sqlite3 connection as the transactional
decorator uses it (2-transactional.py): committed is the durable
database state a fresh reader observes, current is the state the
statements of the open transaction act on.  Outside a transaction the
two coincide. -/
structure Conn (σ : Type u) where
  committed : σ
  current : σ
deriving DecidableEq, Repr

/-- One step of a wrapped database operation: either a statement that
updates the database state, or a point at which the operation raises. -/
inductive Stmt (σ : Type u) (ε : Type v) where
  | sql (f : σ → σ)
  | raiseErr (e : ε)

/-- Run the statements of the wrapped operation in order against the
in-transaction state, stopping at the first raise. -/
def runStmts {σ : Type u} {ε : Type v} : List (Stmt σ ε) → σ → Except ε σ
  | [], s => Except.ok s
  | Stmt.sql f :: rest, s => runStmts rest (f s)
  | Stmt.raiseErr e :: _, _ => Except.error e

/-- transactional(func) (2-transactional.py, lines 37-94): execute
BEGIN, run the operation, commit on normal return (the in-transaction
state becomes durable), and on any exception roll back (the connection
returns to its committed state) and re-raise the original exception. -/
def transactional {σ : Type u} {ε : Type v} (op : List (Stmt σ ε))
    (conn : Conn σ) : Conn σ × Except ε Unit :=
  match runStmts op conn.current with
  | Except.ok s => (⟨s, s⟩, Except.ok ())
  | Except.error e => (⟨conn.committed, conn.committed⟩, Except.error e)

/-- The exception classes the isinstance test of _is_retryable_error
distinguishes (3-retry_on_failure.py, lines 154-158): sqlite3
OperationalError, sqlite3 IntegrityError, ConnectionError,
TimeoutError, and everything else. -/
inductive ExcKind where
  | operationalError
  | integrityError
  | connectionError
  | timeoutError
  | otherError
deriving DecidableEq, Repr

/-- A Python exception as the retry decorator observes it: its class
and its str() message. -/
structure PyExc where
  kind : ExcKind
  msg : String
deriving DecidableEq, Repr

/-- Whether the pattern occurs as a contiguous run at the head of the
character list (the helper for the Python substring test). -/
def headMatches : List Char → List Char → Bool
  | [], _ => true
  | _ :: _, [] => false
  | p :: ps, c :: cs => p == c && headMatches ps cs

/-- Whether the pattern occurs contiguously anywhere in the character
list. -/
def occursIn (pat : List Char) : List Char → Bool
  | [] => headMatches pat []
  | c :: cs => headMatches pat (c :: cs) || occursIn pat cs

/-- The Python test `pattern in error_message` on strings. -/
def containsPat (msg : List Char) (pat : String) : Bool :=
  occursIn pat.toList msg

/-- The Python str.lower() call of _is_retryable_error, character by
character. -/
def lowerChars (s : String) : List Char :=
  s.toList.map Char.toLower

/-- The retryable_patterns list of _is_retryable_error
(3-retry_on_failure.py, lines 134-146). -/
def retryablePatterns : List String :=
  ["database is locked", "database is busy", "disk i/o error",
   "cannot start transaction", "connection failed", "network error",
   "timeout", "temporary failure", "deadlock", "connection refused",
   "connection reset"]

/-- The non_retryable_patterns list of _is_retryable_error
(3-retry_on_failure.py, lines 162-170). -/
def nonRetryablePatterns : List String :=
  ["syntax error", "no such table", "no such column",
   "unique constraint failed", "foreign key constraint failed",
   "not null constraint failed", "check constraint failed"]

/-- The isinstance(exception, (sqlite3.OperationalError,
ConnectionError, TimeoutError)) test of _is_retryable_error
(3-retry_on_failure.py, lines 154-159). -/
def isTransientKind : ExcKind → Bool
  | ExcKind.operationalError => true
  | ExcKind.connectionError => true
  | ExcKind.timeoutError => true
  | _ => false

/-- _is_retryable_error (3-retry_on_failure.py, lines 116-177): lower
the message; return true on a retryable pattern; then return true on a
transient exception class; then return false on a non-retryable
pattern; default to retryable. -/
def is_retryable_error (e : PyExc) : Bool :=
  let m := lowerChars e.msg
  if retryablePatterns.any (fun p => containsPat m p) then true
  else if isTransientKind e.kind then true
  else if nonRetryablePatterns.any (fun p => containsPat m p) then false
  else true

/-- The retry loop of retry_on_failure (3-retry_on_failure.py, lines
66-110).  behav gives the outcome of each invocation of the wrapped
operation (indexed by attempt number); the first Nat argument is the
number of attempts remaining after the current one (retries - attempt,
so 0 models the attempt == retries test of line 91) and the second is
the attempt index.  The result carries the value or re-raised
exception, the number of invocations of the operation, and the number
of backoff sleeps executed. -/
def retryLoop {α : Type u} (behav : Nat → Except PyExc α) :
    Nat → Nat → Except PyExc α × Nat × Nat
  | 0, attempt =>
    match behav attempt with
    | Except.ok a => (Except.ok a, 1, 0)
    | Except.error e =>
      -- with no attempts left, the non-retryable test and the
      -- attempt == retries test both re-raise e after this single
      -- invocation, with no sleep
      (Except.error e, 1, 0)
  | left + 1, attempt =>
    match behav attempt with
    | Except.ok a => (Except.ok a, 1, 0)
    | Except.error e =>
      if is_retryable_error e = false then (Except.error e, 1, 0)
      else
        let r := retryLoop behav left (attempt + 1)
        (r.1, r.2.1 + 1, r.2.2 + 1)

/-- retry_on_failure(retries, delay) applied to an operation
(3-retry_on_failure.py, lines 40-113): run the retry loop from attempt
0 with retries further attempts allowed, so at most retries + 1
invocations. -/
def retry_on_failure {α : Type u} (retries : Nat)
    (behav : Nat → Except PyExc α) : Except PyExc α × Nat × Nat :=
  retryLoop behav retries 0

/-- The cache key data of _generate_cache_key (4-cache_query.py, lines
154-180): function name, positional arguments with the leading
connection handle stripped, and keyword arguments.  The source
serializes this data to JSON and hashes it with md5; both steps are
deterministic, so the embedding uses the key data itself as the key
(hash collisions are outside the model). -/
abbrev CacheKey := String × List String × List (String × String)

/-- _generate_cache_key (4-cache_query.py, lines 154-180): drop the
connection (first positional argument) and keep the rest. -/
def generate_cache_key (funcName : String) (args : List String)
    (kwargs : List (String × String)) : CacheKey :=
  (funcName, args.drop 1, kwargs)

/-- A CacheEntry (4-cache_query.py, lines 45-71): the cached result,
its creation time, and its hit counter.  Time is an abstract tick
count standing for datetime.now(). -/
structure CacheEntry (α : Type u) where
  result : α
  timestamp : Nat
  hitCount : Nat
deriving DecidableEq, Repr

/-- The process-wide query_cache dictionary, as an association list
keyed by cache key. -/
def Cache (α : Type u) : Type u := List (CacheKey × CacheEntry α)

/-- Dictionary membership lookup: cache_key in query_cache followed by
query_cache[cache_key]. -/
def cacheFind {α : Type u} : Cache α → CacheKey → Option (CacheEntry α)
  | [], _ => none
  | (k, e) :: rest, key => if k = key then some e else cacheFind rest key

/-- Dictionary assignment query_cache[cache_key] = entry: replace the
entry of an existing key, or append the key. -/
def cacheSet {α : Type u} : Cache α → CacheKey → CacheEntry α → Cache α
  | [], key, e => [(key, e)]
  | (k, e0) :: rest, key, e =>
    if k = key then (key, e) :: rest else (k, e0) :: cacheSet rest key e

/-- Dictionary deletion del query_cache[cache_key]. -/
def cacheDel {α : Type u} : Cache α → CacheKey → Cache α
  | [], _ => []
  | (k, e0) :: rest, key =>
    if k = key then rest else (k, e0) :: cacheDel rest key

/-- CacheEntry.is_expired (4-cache_query.py, lines 61-67): a
non-positive ttl never expires; otherwise the entry is expired when
the current time is strictly past timestamp + ttl. -/
def is_expired {α : Type u} (entry : CacheEntry α) (ttl : Int) (now : Nat) : Bool :=
  if ttl ≤ 0 then false
  else decide ((entry.timestamp : Int) + ttl < (now : Int))

/-- One call through the cache_query(ttl) wrapper (4-cache_query.py,
lines 98-141).  opResult is the value the wrapped read-only operation
returns when invoked at this call; now is the current time.  The
result is the returned value, the cache after the call, and whether
the wrapped operation was invoked (cache miss) or not (hit). -/
def cache_query_call {α : Type u} (ttl : Int) (funcName : String)
    (args : List String) (kwargs : List (String × String)) (opResult : α)
    (now : Nat) (cache : Cache α) : α × Cache α × Bool :=
  let key := generate_cache_key funcName args kwargs
  match cacheFind cache key with
  | some entry =>
    if is_expired entry ttl now = false then
      (entry.result,
        cacheSet cache key ⟨entry.result, entry.timestamp, entry.hitCount + 1⟩,
        false)
    else
      let cache2 := cacheDel cache key
      (opResult, cacheSet cache2 key ⟨opResult, now, 0⟩, true)
  | none =>
    (opResult, cacheSet cache key ⟨opResult, now, 0⟩, true)

example : chunkList 2 [1, 2, 3, 4, 5] = [[1, 2], [3, 4], [5]] := by decide
example : is_retryable_error ⟨ExcKind.otherError, "Database is LOCKED"⟩ = true := by decide
example : is_retryable_error ⟨ExcKind.integrityError,
    "UNIQUE constraint failed: users.email"⟩ = false := by decide
example : is_retryable_error ⟨ExcKind.operationalError,
    "near SELCT: syntax error"⟩ = true := by decide
example : retry_on_failure 3
    (fun _ => (Except.error ⟨ExcKind.operationalError, "near SELCT: syntax error"⟩ :
      Except PyExc Nat))
    = (Except.error ⟨ExcKind.operationalError, "near SELCT: syntax error"⟩, 4, 3) := by decide
example : calculate_average_age
    (some [ageRow 28, ageRow 35, ageRow 42, ageRow 29, ageRow 33]) = 33.4 := by
  norm_num [calculate_average_age, stream_user_ages, ageRow]
example : lazy_paginate 2 (some (tableSource [ageRow 1, ageRow 2, ageRow 3])) 5
    = (Except.ok [[ageRow 1, ageRow 2], [ageRow 3]], 2) := by decide
example : lazy_paginate 1 (some (tableSource [ageRow 1])) 5
    = (Except.ok [[ageRow 1]], 2) := by decide

/-! ### Lemmas about the fetchmany chunking loop -/

/-- With sufficient fuel, concatenating the fetched batches restores
the result set. -/
theorem chunkFuel_join {α : Type u} :
    ∀ (fuel bs : Nat) (l : List α), l.length ≤ fuel →
      (chunkFuel (bs + 1) fuel l).flatten = l := by
  intro fuel
  induction fuel with
  | zero =>
    intro bs l hl
    have hnil : l = [] := List.eq_nil_of_length_eq_zero (Nat.le_zero.mp hl)
    subst hnil
    rfl
  | succ n ih =>
    intro bs l hl
    cases l with
    | nil => rfl
    | cons x xs =>
      have hd : ((x :: xs).drop (bs + 1)).length ≤ n := by
        simp only [List.length_drop, List.length_cons]
        simp only [List.length_cons] at hl
        omega
      simp only [chunkFuel, List.flatten_cons, ih bs _ hd]
      exact List.take_append_drop _ _

/-- With sufficient fuel, every fetched batch is non-empty and holds at
most batch-size rows. -/
theorem chunkFuel_mem {α : Type u} :
    ∀ (fuel bs : Nat) (l : List α), l.length ≤ fuel →
      ∀ b ∈ chunkFuel (bs + 1) fuel l, b ≠ [] ∧ b.length ≤ bs + 1 := by
  intro fuel
  induction fuel with
  | zero =>
    intro bs l hl b hb
    have hnil : l = [] := List.eq_nil_of_length_eq_zero (Nat.le_zero.mp hl)
    subst hnil
    simp [chunkFuel] at hb
  | succ n ih =>
    intro bs l hl b hb
    cases l with
    | nil => simp [chunkFuel] at hb
    | cons x xs =>
      simp only [chunkFuel, List.mem_cons] at hb
      rcases hb with rfl | hb
      · refine ⟨?_, ?_⟩
        · simp [List.take_succ_cons]
        · exact List.length_take_le _ _
      · have hd : ((x :: xs).drop (bs + 1)).length ≤ n := by
          simp only [List.length_drop, List.length_cons]
          simp only [List.length_cons] at hl
          omega
        exact ih bs _ hd b hb

/-- A non-empty result set yields at least one batch. -/
theorem chunkFuel_ne_nil {α : Type u} (fuel bs : Nat) (x : α) (xs : List α)
    (h : (x :: xs).length ≤ fuel) : chunkFuel (bs + 1) fuel (x :: xs) ≠ [] := by
  cases fuel with
  | zero => simp at h
  | succ n => simp [chunkFuel]

/-- With sufficient fuel, every batch except the last holds exactly
batch-size rows. -/
theorem chunkFuel_dropLast {α : Type u} :
    ∀ (fuel bs : Nat) (l : List α), l.length ≤ fuel →
      ∀ b ∈ (chunkFuel (bs + 1) fuel l).dropLast, b.length = bs + 1 := by
  intro fuel
  induction fuel with
  | zero =>
    intro bs l hl b hb
    have hnil : l = [] := List.eq_nil_of_length_eq_zero (Nat.le_zero.mp hl)
    subst hnil
    simp [chunkFuel] at hb
  | succ n ih =>
    intro bs l hl b hb
    cases l with
    | nil => simp [chunkFuel] at hb
    | cons x xs =>
      simp only [chunkFuel] at hb
      cases hd : (x :: xs).drop (bs + 1) with
      | nil =>
        rw [hd] at hb
        simp [chunkFuel] at hb
      | cons y ys =>
        rw [hd] at hb
        have hlen : ((x :: xs).drop (bs + 1)).length = ys.length + 1 := by
          rw [hd]
          rfl
        simp only [List.length_drop, List.length_cons] at hlen
        simp only [List.length_cons] at hl
        have hyn : (y :: ys).length ≤ n := by
          simp only [List.length_cons]
          omega
        have hne : chunkFuel (bs + 1) n (y :: ys) ≠ [] :=
          chunkFuel_ne_nil n bs y ys hyn
        obtain ⟨c, cs, hc⟩ : ∃ c cs, chunkFuel (bs + 1) n (y :: ys) = c :: cs := by
          cases hcc : chunkFuel (bs + 1) n (y :: ys) with
          | nil => exact absurd hcc hne
          | cons c cs => exact ⟨c, cs, rfl⟩
        rw [hc, List.dropLast_cons₂, List.mem_cons] at hb
        rcases hb with rfl | hb
        · simp only [List.length_take, List.length_cons]
          omega
        · exact ih bs (y :: ys) hyn b (by rw [hc]; exact hb)

/-- The fuel argument of the fetchmany loop is irrelevant once it
covers the length of the result set. -/
theorem chunkFuel_congr {α : Type u} :
    ∀ (fuel₁ fuel₂ bs : Nat) (l : List α), l.length ≤ fuel₁ → l.length ≤ fuel₂ →
      chunkFuel (bs + 1) fuel₁ l = chunkFuel (bs + 1) fuel₂ l := by
  intro fuel₁
  induction fuel₁ with
  | zero =>
    intro fuel₂ bs l h1 h2
    have hnil : l = [] := List.eq_nil_of_length_eq_zero (Nat.le_zero.mp h1)
    subst hnil
    cases fuel₂ <;> rfl
  | succ n ih =>
    intro fuel₂ bs l h1 h2
    cases l with
    | nil => cases fuel₂ <;> rfl
    | cons x xs =>
      cases fuel₂ with
      | zero => simp at h2
      | succ m =>
        simp only [chunkFuel]
        simp only [List.length_cons] at h1 h2
        have hd : ((x :: xs).drop (bs + 1)).length ≤ xs.length := by
          simp only [List.length_drop, List.length_cons]
          omega
        rw [ih m bs _ (by omega) (by omega)]

/-- Unfolding chunkList on a non-empty result set: one batch of up to
bs + 1 rows, then the chunking of the remainder. -/
theorem chunkList_cons {α : Type u} (bs : Nat) (x : α) (xs : List α) :
    chunkList (bs + 1) (x :: xs)
      = (x :: xs).take (bs + 1) :: chunkList (bs + 1) ((x :: xs).drop (bs + 1)) := by
  show chunkFuel (bs + 1) (xs.length + 1) (x :: xs) = _
  simp only [chunkFuel]
  unfold chunkList
  rw [chunkFuel_congr xs.length ((x :: xs).drop (bs + 1)).length bs _
    (by simp only [List.length_drop, List.length_cons]; omega) (le_refl _)]

/-- Concatenating the batches of chunkList restores the list. -/
theorem chunkList_flatten {α : Type u} (bs : Nat) (hbs : 0 < bs) (l : List α) :
    (chunkList bs l).flatten = l := by
  obtain ⟨b, rfl⟩ : ∃ b, bs = b + 1 := ⟨bs - 1, by omega⟩
  exact chunkFuel_join l.length b l (le_refl _)

/-- Every batch of chunkList is non-empty and at most the batch size. -/
theorem chunkList_mem {α : Type u} (bs : Nat) (hbs : 0 < bs) (l : List α) :
    ∀ b ∈ chunkList bs l, b ≠ [] ∧ b.length ≤ bs := by
  obtain ⟨b, rfl⟩ : ∃ b, bs = b + 1 := ⟨bs - 1, by omega⟩
  exact chunkFuel_mem l.length b l (le_refl _)

/-- Every batch of chunkList except the last is exactly the batch
size. -/
theorem chunkList_dropLast {α : Type u} (bs : Nat) (hbs : 0 < bs) (l : List α) :
    ∀ b ∈ (chunkList bs l).dropLast, b.length = bs := by
  obtain ⟨b, rfl⟩ : ∃ b, bs = b + 1 := ⟨bs - 1, by omega⟩
  exact chunkFuel_dropLast l.length b l (le_refl _)

/-- With a positive batch size, stream_users_in_batches over a reachable
table passes validation, opens one connection and yields the chunking of
the rows. -/
theorem stream_users_in_batches_pos (bs : Nat) (hbs : 0 < bs) (R : List Row) :
    stream_users_in_batches (bs : Int) (some R) = (Except.ok (chunkList bs R), 1) := by
  have h1 : ¬ ((bs : Int) ≤ 0) := by
    have : (0 : Int) < (bs : Int) := by exact_mod_cast hbs
    omega
  simp [stream_users_in_batches, h1]

/-- The nested loops of batch_processing filter the concatenation of
the batches. -/
theorem filterBatches_eq (bl : List (List Row)) :
    filterBatches bl = bl.flatten.filter fun u => decide (25 < u.age) := by
  induction bl with
  | nil => rfl
  | cons b rest ih =>
    simp [filterBatches, ih, List.filter_append]

/-- The pagination loop over a fixed table: with enough fuel it yields
exactly the chunking of the rows from the current offset on, fetching
floor(remaining / page_size) + 1 pages in total.  The final fetch is
either the short last page or the empty page past the end. -/
theorem lazyPagLoop_tableSource (R : List Row) (bs : Nat) :
    ∀ (fuel offset : Nat), (R.drop offset).length < fuel * (bs + 1) →
      lazyPagLoop (some (tableSource R)) (bs + 1) fuel offset
        = (chunkList (bs + 1) (R.drop offset),
            (R.drop offset).length / (bs + 1) + 1) := by
  intro fuel
  induction fuel with
  | zero =>
    intro offset h
    simp at h
  | succ n ih =>
    intro offset h
    have hpage : paginate_users (some (tableSource R)) (bs + 1) offset
        = (R.drop offset).take (bs + 1) := rfl
    simp only [lazyPagLoop, hpage]
    cases hD : R.drop offset with
    | nil =>
      simp [chunkList, chunkFuel]
    | cons x xs =>
      rw [hD] at h
      have hie : ((x :: xs).take (bs + 1)).isEmpty = false := by
        simp [List.take_succ_cons]
      rw [hie]
      simp only [Bool.false_eq_true, if_false]
      by_cases hlen : (x :: xs).length < bs + 1
      · have htake : (x :: xs).take (bs + 1) = x :: xs :=
          List.take_of_length_le (Nat.le_of_lt hlen)
        rw [if_pos (by rw [htake]; exact hlen)]
        rw [htake, chunkList_cons, htake,
          List.drop_eq_nil_of_le (Nat.le_of_lt hlen)]
        have hdiv : (xs.length + 1) / (bs + 1) = 0 :=
          Nat.div_eq_of_lt (by simpa using hlen)
        simp [chunkList, chunkFuel, hdiv]
      · push_neg at hlen
        have hplen : ((x :: xs).take (bs + 1)).length = bs + 1 := by
          simp only [List.length_take, List.length_cons]
          simp only [List.length_cons] at hlen
          omega
        rw [if_neg (by rw [hplen]; exact lt_irrefl _)]
        have hdd : R.drop (offset + (bs + 1)) = (x :: xs).drop (bs + 1) := by
          rw [← hD, ← List.drop_drop]
        have hmul : (n + 1) * (bs + 1) = n * (bs + 1) + (bs + 1) :=
          Nat.succ_mul _ _
        rw [hmul] at h
        simp only [List.length_cons] at h hlen
        have hrecb : (R.drop (offset + (bs + 1))).length < n * (bs + 1) := by
          rw [hdd]
          simp only [List.length_drop, List.length_cons]
          omega
        have hrec := ih (offset + (bs + 1)) hrecb
        rw [hdd] at hrec
        rw [hrec, chunkList_cons]
        have hcount : (x :: xs).length / (bs + 1)
            = ((x :: xs).drop (bs + 1)).length / (bs + 1) + 1 := by
          simp only [List.length_drop, List.length_cons]
          rw [Nat.div_eq_sub_div (Nat.succ_pos bs) (by omega)]
        rw [hcount]

/-- A wrapped operation that succeeds at the current attempt makes the
retry loop return its value after this single invocation with no
sleep, whatever the remaining attempt budget. -/
theorem retryLoop_ok {α : Type u} (behav : Nat → Except PyExc α)
    (attempt : Nat) (a : α) (h : behav attempt = Except.ok a) (left : Nat) :
    retryLoop behav left attempt = (Except.ok a, 1, 0) := by
  cases left <;> simp [retryLoop, h]

/-- A wrapped operation that raises a non-retryable error at the
current attempt makes the retry loop re-raise it after this single
invocation with no sleep, whatever the remaining attempt budget. -/
theorem retryLoop_permanent {α : Type u} (behav : Nat → Except PyExc α)
    (attempt : Nat) (e : PyExc) (h : behav attempt = Except.error e)
    (hr : is_retryable_error e = false) (left : Nat) :
    retryLoop behav left attempt = (Except.error e, 1, 0) := by
  cases left <;> simp [retryLoop, h, hr]

/-- The running sum and running count fold of calculate_average_age
computes the sum and the length of the age stream. -/
theorem sumCount_foldl (ages : List Int) :
    ∀ (s : Int) (n : Nat),
      ages.foldl (fun p age => (p.1 + age, p.2 + 1)) (s, n)
        = (s + ages.sum, n + ages.length) := by
  induction ages with
  | nil => intro s n; simp
  | cons a l ih =>
    intro s n
    simp only [List.foldl_cons, ih, List.sum_cons, List.length_cons,
      Prod.mk.injEq]
    constructor
    · ring
    · omega

/-! ### Claims about the StreamingQuery layer -/

/-- Claim C1, counterexample to the fetch count as stated: over a one
row table with page_size 1 (so page_size divides the row count),
lazy_paginate issues 2 calls to paginate_users while
ceil(1 / 1) = (1 + 1 - 1) / 1 = 1. -/
theorem C1_fetch_count_counterexample :
    lazy_paginate 1 (some (tableSource [ageRow 30])) 2
      = (Except.ok [[ageRow 30]], 2) ∧
    ([ageRow 30] : List Row).length = 1 ∧
    (([ageRow 30] : List Row).length + 1 - 1) / 1 = 1 ∧
    (2 : Nat) ≠ 1 := by decide

/-- Claim C1, amended: for page_size > 0 over a fixed table R (with
enough fuel to cover the run), the pages of lazy_paginate concatenate
to R in order, and the number of paginate_users calls is
floor(length R / page_size) + 1 — the last call returns either the
short final page or the empty page past the end, so the count is
ceil(length R / page_size) exactly when page_size does not divide
length R, and one more when it does. -/
theorem C1_lazy_paginate_pages_and_fetch_count (R : List Row) (ps fuel : Nat)
    (hps : 0 < ps) (hfuel : R.length < fuel * ps) :
    lazy_paginate (ps : Int) (some (tableSource R)) fuel
      = (Except.ok (chunkList ps R), R.length / ps + 1) ∧
    (chunkList ps R).flatten = R := by
  obtain ⟨b, rfl⟩ : ∃ b, ps = b + 1 := ⟨ps - 1, by omega⟩
  have hloop := lazyPagLoop_tableSource R b fuel 0
    (by rw [List.drop_zero]; exact hfuel)
  rw [List.drop_zero] at hloop
  constructor
  · have h1 : ¬ (((b + 1 : Nat) : Int) ≤ 0) := by
      have h2 : (0 : Int) < ((b + 1 : Nat) : Int) := by
        exact_mod_cast Nat.succ_pos b
      omega
    simp only [lazy_paginate, h1, if_false, Int.toNat_natCast, hloop]
  · exact chunkList_flatten (b + 1) (Nat.succ_pos b) R

/-- Claim C1 witness: three rows with page_size 2 give pages of 2 and
1 rows and 3 / 2 + 1 = 2 fetches. -/
theorem C1_lazy_paginate_pages_and_fetch_count_witness :
    lazy_paginate ((2 : Nat) : Int)
        (some (tableSource [ageRow 1, ageRow 2, ageRow 3])) 2
      = (Except.ok (chunkList 2 [ageRow 1, ageRow 2, ageRow 3]),
          ([ageRow 1, ageRow 2, ageRow 3] : List Row).length / 2 + 1) ∧
    (chunkList 2 [ageRow 1, ageRow 2, ageRow 3]).flatten
      = [ageRow 1, ageRow 2, ageRow 3] :=
  C1_lazy_paginate_pages_and_fetch_count [ageRow 1, ageRow 2, ageRow 3] 2 2
    (by decide) (by decide)

/-- Claim C2, counterexample as stated: the underlying query of the
first page fetch raises a mysql Error, yet lazy_paginate neither
propagates any failure nor yields anything — it returns normally with
an empty page list after that single fetch, because paginate_users
catches the Error and returns an empty list. -/
theorem C2_failed_fetch_propagation_counterexample :
    failingSource 1 0
      = Except.error { msg := "mysql connection lost during query" } ∧
    lazy_paginate 1 (some failingSource) 3 = (Except.ok [], 1) := by decide

/-- Claim C2, amended: when the underlying query of the fetch at the
current offset raises, paginate_users swallows the error and returns
an empty page, so the pagination loop terminates at that point after
that single fetch, yielding no partial page and propagating no error
to the consumer. -/
theorem C2_failed_fetch_swallowed
    (q : Nat → Nat → Except DBError (List Row))
    (ps offset fuel : Nat) (e : DBError)
    (hfail : q ps offset = Except.error e) :
    paginate_users (some q) ps offset = [] ∧
    lazyPagLoop (some q) ps (fuel + 1) offset = ([], 1) := by
  have hp : paginate_users (some q) ps offset = [] := by
    simp [paginate_users, hfail]
  exact ⟨hp, by simp [lazyPagLoop, hp]⟩

/-- Claim C2 witness: the always-failing source at page size 2. -/
theorem C2_failed_fetch_swallowed_witness :
    paginate_users (some failingSource) 2 0 = [] ∧
    lazyPagLoop (some failingSource) 2 (0 + 1) 0 = ([], 1) :=
  C2_failed_fetch_swallowed failingSource 2 0 0
    { msg := "mysql connection lost during query" } rfl

/-- Claim C7: for batch_size > 0 over a fixed table R, the batch
stream passes validation and yields batches whose concatenation is R
in order; every batch is non-empty and at most batch_size rows, and
every batch except the last is exactly batch_size rows. -/
theorem C7_batch_stream_partition (bs : Nat) (hbs : 0 < bs) (R : List Row) :
    stream_users_in_batches (bs : Int) (some R)
      = (Except.ok (chunkList bs R), 1) ∧
    (chunkList bs R).flatten = R ∧
    (∀ b ∈ chunkList bs R, b ≠ [] ∧ b.length ≤ bs) ∧
    (∀ b ∈ (chunkList bs R).dropLast, b.length = bs) :=
  ⟨stream_users_in_batches_pos bs hbs R, chunkList_flatten bs hbs R,
    chunkList_mem bs hbs R, chunkList_dropLast bs hbs R⟩

/-- Claim C7 witness: five rows with batch_size 2. -/
theorem C7_batch_stream_partition_witness :
    stream_users_in_batches ((2 : Nat) : Int)
        (some [ageRow 1, ageRow 2, ageRow 3, ageRow 4, ageRow 5])
      = (Except.ok (chunkList 2 [ageRow 1, ageRow 2, ageRow 3, ageRow 4, ageRow 5]), 1) ∧
    (chunkList 2 [ageRow 1, ageRow 2, ageRow 3, ageRow 4, ageRow 5]).flatten
      = [ageRow 1, ageRow 2, ageRow 3, ageRow 4, ageRow 5] ∧
    (∀ b ∈ chunkList 2 [ageRow 1, ageRow 2, ageRow 3, ageRow 4, ageRow 5],
      b ≠ [] ∧ b.length ≤ 2) ∧
    (∀ b ∈ (chunkList 2 [ageRow 1, ageRow 2, ageRow 3, ageRow 4, ageRow 5]).dropLast,
      b.length = 2) :=
  C7_batch_stream_partition 2 (by decide)
    [ageRow 1, ageRow 2, ageRow 3, ageRow 4, ageRow 5]

/-- Claim C10: for batch_size > 0 over a fixed table R,
batch_processing yields exactly the rows of R whose age is strictly
greater than 25, in their order in R (so a row aged exactly 25 is
excluded). -/
theorem C10_batch_filter_over_25 (bs : Nat) (hbs : 0 < bs) (R : List Row) :
    batch_processing (bs : Int) (some R)
      = (Except.ok (R.filter fun u => decide (25 < u.age)), 1) := by
  have h1 := stream_users_in_batches_pos bs hbs R
  simp only [batch_processing, h1]
  rw [filterBatches_eq, chunkList_flatten bs hbs]

/-- Claim C10 witness: a row aged exactly 25 is dropped, a row aged 26
is kept. -/
theorem C10_batch_filter_over_25_witness :
    batch_processing ((1 : Nat) : Int) (some [ageRow 25, ageRow 26])
      = (Except.ok ([ageRow 25, ageRow 26].filter fun u => decide (25 < u.age)), 1) ∧
    ([ageRow 25, ageRow 26].filter fun u => decide (25 < u.age)) = [ageRow 26] :=
  ⟨C10_batch_filter_over_25 1 (by decide) [ageRow 25, ageRow 26], by decide⟩

/-- Claim C9: a non-positive batch_size makes stream_users_in_batches
raise ValueError with no connection opened, and a non-positive
page_size makes lazy_paginate raise ValueError with no fetch (hence no
connection) performed, whatever the data source. -/
theorem C9_nonpositive_size_validation (bs ps : Int) (hbs : bs ≤ 0)
    (hps : ps ≤ 0) (src : Option (List Row))
    (conn : Option (Nat → Nat → Except DBError (List Row))) (fuel : Nat) :
    stream_users_in_batches bs src
      = (Except.error (PyErr.valueError "Batch size must be a positive integer"), 0) ∧
    lazy_paginate ps conn fuel
      = (Except.error (PyErr.valueError "Page size must be a positive integer"), 0) :=
  ⟨by simp [stream_users_in_batches, hbs], by simp [lazy_paginate, hps]⟩

/-- Claim C9 witness: batch_size 0 and page_size -1. -/
theorem C9_nonpositive_size_validation_witness :
    stream_users_in_batches 0 none
      = (Except.error (PyErr.valueError "Batch size must be a positive integer"), 0) ∧
    lazy_paginate (-1) none 0
      = (Except.error (PyErr.valueError "Page size must be a positive integer"), 0) :=
  C9_nonpositive_size_validation 0 (-1) (by decide) (by decide) none none 0

/-- Claim C8: calculate_average_age returns the arithmetic mean (sum
of the streamed ages divided by their count, accumulated by the
running-sum running-count fold); over ages 28, 35, 42, 29, 33 it
returns 33.4, and over an empty table it returns 0.0 rather than
raising. -/
theorem C8_streaming_average :
    (∀ rows : List Row, rows ≠ [] →
      calculate_average_age (some rows)
        = (((rows.map fun r => r.age).sum : Int) : Rat) / (rows.length : Rat)) ∧
    calculate_average_age
      (some [ageRow 28, ageRow 35, ageRow 42, ageRow 29, ageRow 33]) = 33.4 ∧
    calculate_average_age (some []) = 0 := by
  refine ⟨?_, ?_, rfl⟩
  · intro rows hne
    have hlen : 0 < rows.length := List.length_pos.mpr hne
    have hs : stream_user_ages (some rows) = rows.map fun r => r.age := rfl
    simp only [calculate_average_age, hs, sumCount_foldl, zero_add,
      List.length_map]
    rw [if_pos hlen]
  · norm_num [calculate_average_age, stream_user_ages, ageRow]

/-- Claim C8 witness: mean of ages 30 and 40. -/
theorem C8_streaming_average_witness :
    calculate_average_age (some [ageRow 30, ageRow 40])
      = ((([ageRow 30, ageRow 40].map fun r => r.age).sum : Int) : Rat)
        / (([ageRow 30, ageRow 40] : List Row).length : Rat) :=
  C8_streaming_average.1 [ageRow 30, ageRow 40] (by decide)

/-! ### Claims about the Resilient-Call layer -/

/-- Claim C3: starting from a connection with no open transaction, a
transactional call either commits (on normal return the durable state
is the state after all statements) or rolls back (on any raise the
durable and visible states are unchanged — no partial effect of the
statements already executed survives — and the original exception is
re-raised unchanged). -/
theorem C3_transactional_atomicity {σ : Type u} {ε : Type v}
    (op : List (Stmt σ ε)) (s0 : σ) :
    (∀ s, runStmts op s0 = Except.ok s →
      transactional op ⟨s0, s0⟩ = (⟨s, s⟩, Except.ok ())) ∧
    (∀ e, runStmts op s0 = Except.error e →
      transactional op ⟨s0, s0⟩ = (⟨s0, s0⟩, Except.error e)) := by
  constructor
  · intro s h
    simp [transactional, h]
  · intro e h
    simp [transactional, h]

/-- Claim C3 witness: an operation that writes, raises, then would
write again leaves the database at its initial state and re-raises. -/
theorem C3_transactional_atomicity_witness :
    transactional
      [Stmt.sql (fun s => s + 10), Stmt.raiseErr "boom",
        Stmt.sql (fun s => s + 100)]
      (⟨0, 0⟩ : Conn Nat)
      = (⟨0, 0⟩, Except.error "boom") :=
  (C3_transactional_atomicity
    [Stmt.sql (fun s => s + 10), Stmt.raiseErr "boom",
      Stmt.sql (fun s => s + 100)] 0).2 "boom" rfl

/-- Claim C4: with at least 3 attempts configured (retries at least
2), an operation raising retryable-classified errors on its first two
invocations and succeeding on the third makes retry_on_failure return
the success value after exactly 3 invocations (and 2 backoff sleeps);
an operation raising a non-retryable-classified error on its first
invocation is re-raised after exactly 1 invocation with no sleep. -/
theorem C4_retry_counts {α : Type u} (retries : Nat) (hret : 2 ≤ retries)
    (behav behavP : Nat → Except PyExc α) (e0 e1 ep : PyExc) (a : α)
    (h0 : behav 0 = Except.error e0) (hr0 : is_retryable_error e0 = true)
    (h1 : behav 1 = Except.error e1) (hr1 : is_retryable_error e1 = true)
    (h2 : behav 2 = Except.ok a)
    (hp : behavP 0 = Except.error ep) (hrp : is_retryable_error ep = false) :
    retry_on_failure retries behav = (Except.ok a, 3, 2) ∧
    retry_on_failure retries behavP = (Except.error ep, 1, 0) := by
  obtain ⟨k, rfl⟩ : ∃ k, retries = (k + 1) + 1 := ⟨retries - 2, by omega⟩
  constructor
  · have hstep2 : retryLoop behav k 2 = (Except.ok a, 1, 0) :=
      retryLoop_ok behav 2 a h2 k
    show retryLoop behav ((k + 1) + 1) 0 = (Except.ok a, 3, 2)
    simp [retryLoop, h0, h1, hr0, hr1, hstep2]
  · exact retryLoop_permanent behavP 0 ep hp hrp ((k + 1) + 1)

/-- Claim C4 witness: a locked-database error twice then success, and
a unique-constraint error at once, under retries = 2. -/
theorem C4_retry_counts_witness :
    retry_on_failure 2
        (fun n => if n < 2 then
          Except.error ⟨ExcKind.otherError, "database is locked"⟩
          else Except.ok (42 : Nat))
      = (Except.ok 42, 3, 2) ∧
    retry_on_failure 2
        (fun _ => (Except.error
          ⟨ExcKind.integrityError, "unique constraint failed: users.email"⟩ :
            Except PyExc Nat))
      = (Except.error
          ⟨ExcKind.integrityError, "unique constraint failed: users.email"⟩,
          1, 0) :=
  C4_retry_counts 2 (by decide)
    (fun n => if n < 2 then
      Except.error ⟨ExcKind.otherError, "database is locked"⟩
      else Except.ok (42 : Nat))
    (fun _ => Except.error
      ⟨ExcKind.integrityError, "unique constraint failed: users.email"⟩)
    ⟨ExcKind.otherError, "database is locked"⟩
    ⟨ExcKind.otherError, "database is locked"⟩
    ⟨ExcKind.integrityError, "unique constraint failed: users.email"⟩
    42 rfl (by decide) rfl (by decide) rfl rfl (by decide)

/-- Claim C5 (code bug in _is_retryable_error): a sqlite syntax error
is raised as an OperationalError, and the isinstance test of
_is_retryable_error runs before the non-retryable pattern scan, so an
error whose message matches the non-retryable pattern "syntax error"
is nevertheless classified retryable, and the wrapper retries it to
exhaustion (4 invocations, 3 sleeps under retries = 3) instead of
propagating it immediately — contradicting the spec and the docstring
of fetch_users_with_permanent_error in the same file. -/
theorem C5_permanent_error_retried :
    containsPat (lowerChars "near SELCT: syntax error") "syntax error" = true ∧
    is_retryable_error ⟨ExcKind.operationalError, "near SELCT: syntax error"⟩
      = true ∧
    retry_on_failure 3
        (fun _ => (Except.error
          ⟨ExcKind.operationalError, "near SELCT: syntax error"⟩ :
            Except PyExc Nat))
      = (Except.error ⟨ExcKind.operationalError, "near SELCT: syntax error"⟩,
          4, 3) := by decide

/-- Claim C6: for TTL t > 0, starting from an empty cache — a first
call invokes the wrapped operation and caches its result keyed without
the connection handle; a second call with the same arguments (even on
a different connection) within t returns the first result without
invoking the operation (only the hit counter moves); a call with
different arguments invokes the operation; and a call with the same
arguments strictly after t has elapsed evicts the expired entry,
invokes the operation again and stores the fresh result. -/
theorem C6_cache_ttl_behavior {α : Type u} (t : Int) (ht : 0 < t)
    (fname c1 c2 c3 c4 : String) (args args2 : List String)
    (kwargs : List (String × String)) (v1 v2 v3 v4 : α) (t1 t2 t3 : Nat)
    (hwithin : (t2 : Int) ≤ (t1 : Int) + t)
    (hafter : (t1 : Int) + t < (t3 : Int))
    (hdiff : args ≠ args2) :
    cache_query_call t fname (c1 :: args) kwargs v1 t1 []
      = (v1, [((fname, args, kwargs), ⟨v1, t1, 0⟩)], true) ∧
    cache_query_call t fname (c2 :: args) kwargs v2 t2
        [((fname, args, kwargs), ⟨v1, t1, 0⟩)]
      = (v1, [((fname, args, kwargs), ⟨v1, t1, 1⟩)], false) ∧
    (cache_query_call t fname (c3 :: args2) kwargs v3 t2
        [((fname, args, kwargs), ⟨v1, t1, 0⟩)]).2.2 = true ∧
    cache_query_call t fname (c4 :: args) kwargs v4 t3
        [((fname, args, kwargs), ⟨v1, t1, 0⟩)]
      = (v4, [((fname, args, kwargs), ⟨v4, t3, 0⟩)], true) := by
  have hnexp : is_expired (⟨v1, t1, 0⟩ : CacheEntry α) t t2 = false := by
    simp only [is_expired]
    rw [if_neg (by omega)]
    simp only [decide_eq_false_iff_not]
    omega
  have hexp : is_expired (⟨v1, t1, 0⟩ : CacheEntry α) t t3 = true := by
    simp only [is_expired]
    rw [if_neg (by omega)]
    simp only [decide_eq_true_eq]
    omega
  have hkey : ¬ (((fname, args, kwargs) : CacheKey) = (fname, args2, kwargs)) := by
    intro h
    exact hdiff (congrArg (fun k : CacheKey => k.2.1) h)
  refine ⟨rfl, ?_, ?_, ?_⟩
  · simp [cache_query_call, generate_cache_key, cacheFind, cacheSet, hnexp]
  · simp [cache_query_call, generate_cache_key, cacheFind, cacheSet, hkey]
  · simp [cache_query_call, generate_cache_key, cacheFind, cacheDel,
      cacheSet, hexp]

/-- Claim C6 witness: TTL 10, first call at time 0, hits at time 10,
different-argument call at time 10, expiry at time 11. -/
theorem C6_cache_ttl_behavior_witness :
    cache_query_call (10 : Int) "q" ["c1", "a"] [] (1 : Nat) 0 []
      = (1, [(("q", ["a"], []), ⟨1, 0, 0⟩)], true) ∧
    cache_query_call (10 : Int) "q" ["c2", "a"] [] (2 : Nat) 10
        [(("q", ["a"], []), ⟨1, 0, 0⟩)]
      = (1, [(("q", ["a"], []), ⟨1, 0, 1⟩)], false) ∧
    (cache_query_call (10 : Int) "q" ["c3", "b"] [] (3 : Nat) 10
        [(("q", ["a"], []), ⟨1, 0, 0⟩)]).2.2 = true ∧
    cache_query_call (10 : Int) "q" ["c4", "a"] [] (4 : Nat) 11
        [(("q", ["a"], []), ⟨1, 0, 0⟩)]
      = (4, [(("q", ["a"], []), ⟨4, 11, 0⟩)], true) :=
  C6_cache_ttl_behavior 10 (by decide) "q" "c1" "c2" "c3" "c4" ["a"] ["b"]
    [] 1 2 3 4 0 10 11 (by decide) (by decide) (by decide)
